import Mathlib

/-!
Verification of the mpv fragment: `src/common/common.c` (time formatting and
C-style escape parsing over byte strings) and `src/video/out/wayland_common.c`
(windowing backend control dispatch, init/uninit, event polling).

Byte strings (`bstr` in the source) are embedded as `List Char`, each `Char`
standing for one byte.  Machine double `time` is embedded as `ℚ` (exact for
every value the claims touch).  Fallible functions return `Option` or carry an
explicit success flag, mirroring the C in/out parameters.
-/

namespace Mpv

/-! ## common.c : mp_format_time_fmt -/

/-- Modelled from the spec: the unknown-value sentinel `MP_NOPTS_VALUE`
(defined in the header `common/common.h`, which is not under `src/`; in mpv it
is the double `-2^63`).  Only its role as a distinguished sentinel matters. -/
def MP_NOPTS_VALUE : ℚ := -(2 ^ 63)

/-- `time = time < 0 ? -time : time` (common.c line 46). -/
def abs_time (t : ℚ) : ℚ := if t < 0 then -t else t

/-- `char *sign = time < 0 ? "-" : ""` (common.c line 45). -/
def time_sign (t : ℚ) : List Char := if t < 0 then ['-'] else []

/-- `long long int itime = time` (common.c line 47): C truncation of the
(already non-negative) absolute time. -/
def itime (t : ℚ) : ℕ := (⌊abs_time t⌋).toNat

/-- `h = s / 3600` (common.c line 52). -/
def fmt_hours (t : ℚ) : ℕ := itime t / 3600

/-- `tm = s / 60` computed before hours are subtracted (common.c line 51). -/
def fmt_totmin (t : ℚ) : ℕ := itime t / 60

/-- `m = s / 60` after `s -= h * 3600` (common.c lines 53-54). -/
def fmt_mins (t : ℚ) : ℕ := (itime t - fmt_hours t * 3600) / 60

/-- `s -= m * 60` (common.c line 55): seconds 0-59. -/
def fmt_secs (t : ℚ) : ℕ := itime t - fmt_hours t * 3600 - fmt_mins t * 60

/-- `ms = (time - itime) * 1000` (common.c line 56), C int truncation of a
value in `[0, 1000)`. -/
def fmt_msecs (t : ℚ) : ℕ := (⌊(abs_time t - (itime t : ℚ)) * 1000⌋).toNat

/-- Decimal digits of a natural number, as bytes. -/
def nat_str (n : ℕ) : List Char := (toString n).toList

/-- `printf`-style zero padding to width `w` (all padded values in
`mp_format_time_fmt` are non-negative). -/
def zpad (w : ℕ) (s : List Char) : List Char :=
  List.replicate (w - s.length) '0' ++ s

/-- `%0wlld` rendering of a non-negative value. -/
def fmt_pad (w : ℕ) (n : ℕ) : List Char := zpad w (nat_str n)

/-- One directive of the `switch (fmt[0])` at common.c lines 61-71.
`none` models the `default: goto error` arm. -/
def directive_str (sign : List Char) (h tm m s it ms : ℕ) (d : Char) :
    Option (List Char) :=
  if d = 'h' then some (sign ++ nat_str h)
  else if d = 'H' then some (sign ++ fmt_pad 2 h)
  else if d = 'm' then some (sign ++ nat_str tm)
  else if d = 'M' then some (fmt_pad 2 m)
  else if d = 's' then some (sign ++ nat_str it)
  else if d = 'S' then some (fmt_pad 2 s)
  else if d = 'T' then some (fmt_pad 3 ms)
  else if d = '%' then some ['%']
  else none

/-- Whether a directive character is in the recognized set
{h, H, m, M, s, S, T, %} (the numeric arguments do not affect someness). -/
def directive_supported (d : Char) : Bool :=
  (directive_str [] 0 0 0 0 0 0 d).isSome

/-- The `while (*fmt)` loop of common.c lines 58-77: a `%` consumes the next
character as a directive (failing on an unsupported one, including a trailing
`%` where `fmt[0]` is the terminating NUL); any other character is copied.
A later failure discards all accumulated output (`goto error` frees `res`). -/
def format_loop (sign : List Char) (h tm m s it ms : ℕ) :
    List Char → Option (List Char)
  | [] => some []
  | c :: fs =>
    if c = '%' then
      match fs with
      | [] => none
      | d :: fs2 =>
        match directive_str sign h tm m s it ms d with
        | none => none
        | some piece => (format_loop sign h tm m s it ms fs2).map (piece ++ ·)
    else
      (format_loop sign h tm m s it ms fs).map (c :: ·)

/-- `mp_format_time_fmt` (common.c lines 41-82).  Returns `none` for the C
`NULL` error result. -/
def mp_format_time_fmt (fmt : List Char) (time : ℚ) : Option (List Char) :=
  if time = MP_NOPTS_VALUE then some ("unknown".toList)
  else
    format_loop (time_sign time) (fmt_hours time) (fmt_totmin time)
      (fmt_mins time) (fmt_secs time) (itime time) (fmt_msecs time) fmt

/-- `mp_format_time` (common.c lines 84-87). -/
def mp_format_time (time : ℚ) (fractions : Bool) : Option (List Char) :=
  mp_format_time_fmt
    ((if fractions then "%H:%M:%S.%T" else "%H:%M:%S").toList) time

/-- The left-to-right scan of `format_loop` hits the `default: goto error`
arm: some `%` is followed by an unsupported directive character, or a `%` is
the last character (`%%` consumes both characters). -/
def fmt_malformed : List Char → Bool
  | [] => false
  | c :: fs =>
    if c = '%' then
      match fs with
      | [] => true
      | d :: fs2 => if directive_supported d then fmt_malformed fs2 else true
    else fmt_malformed fs

/-! ## common.c : escape parsing

The `bstr` helpers live in `misc/bstr.{h,c}`, which is not under `src/`; they
are embedded here with their standard mpv semantics (byte-slice operations,
and `bstrtoll` = lstrip + C `strtoll`). -/

/-- `bstr_cut(s, n)`: drop the first `n` bytes (clamped). -/
def bstr_cut (s : List Char) (n : ℕ) : List Char := s.drop n

/-- `bstr_splice(s, a, b)`: the sub-slice `[a, b)` (clamped). -/
def bstr_splice (s : List Char) (a b : ℕ) : List Char := (s.take b).drop a

/-- `bstr_xappend(ctx, dst, t)`: append bytes to the growable buffer
(allocation behaviour is not modelled). -/
def bstr_xappend (dst t : List Char) : List Char := dst ++ t

/-- C `isspace` for the default locale. -/
def isCSpace (c : Char) : Bool :=
  decide (c ∈ ([' ', Char.ofNat 9, Char.ofNat 10, Char.ofNat 11,
                Char.ofNat 12, Char.ofNat 13] : List Char))

/-- `strtoll` base-16 digit test: `0-9`, `a-f`, `A-F`. -/
def isHexDigit (c : Char) : Bool :=
  decide ((48 ≤ c.toNat ∧ c.toNat ≤ 57) ∨ (97 ≤ c.toNat ∧ c.toNat ≤ 102)
            ∨ (65 ≤ c.toNat ∧ c.toNat ≤ 70))

/-- Numeric value of a base-16 digit (0 on a non-digit). -/
def hexVal (c : Char) : ℕ :=
  if 48 ≤ c.toNat ∧ c.toNat ≤ 57 then c.toNat - 48
  else if 97 ≤ c.toNat ∧ c.toNat ≤ 102 then c.toNat - 87
  else if 65 ≤ c.toNat ∧ c.toNat ≤ 70 then c.toNat - 55
  else 0

/-- Greedy run of base-16 digits, returning the accumulated value and the
unconsumed remainder (the position `strtoll` leaves `endptr` at). -/
def parse_hex_digits (acc : ℕ) : List Char → ℕ × List Char
  | [] => (acc, [])
  | c :: r =>
    if isHexDigit c then parse_hex_digits (16 * acc + hexVal c) r
    else (acc, c :: r)

/-- Whether an optional `0x`/`0X` prefix is followed by a base-16 digit
(only then does `strtoll` consume the prefix). -/
def hexAfterX : List Char → Bool
  | x :: d :: _ => (x == 'x' || x == 'X') && isHexDigit d
  | _ => false

/-- The `strtoll(buf, &endptr, 16)` step of `bstrtoll` on the lstripped
slice `body` (`stripped` is returned whole when no conversion happens, which
is how `bstrtoll` computes `rest` from `endptr == buf`). -/
def strtoll_core (sgn : ℤ) (stripped body : List Char) : ℤ × List Char :=
  match body with
  | [] => (0, stripped)
  | c :: rest =>
    if c = '0' ∧ hexAfterX rest = true then
      let p := parse_hex_digits 0 rest.tail
      (sgn * p.1, p.2)
    else if isHexDigit c then
      let p := parse_hex_digits 0 (c :: rest)
      (sgn * p.1, p.2)
    else (0, stripped)

/-- `bstrtoll(str, &rest, 16)` (misc/bstr.c, not under `src/`): lstrip
whitespace, then C `strtoll` in base 16 (optional sign, optional `0x` prefix,
greedy hex digits); `rest` is the unconsumed tail of the stripped slice. -/
def bstrtoll16 (s : List Char) : ℤ × List Char :=
  match s.dropWhile isCSpace with
  | [] => (0, [])
  | c :: rest =>
    if c = '-' then strtoll_core (-1) (c :: rest) rest
    else if c = '+' then strtoll_core 1 (c :: rest) rest
    else strtoll_core 1 (c :: rest) (c :: rest)

/-- The `switch (code->start[0])` table at common.c lines 155-165 (`replace`
stays 0, i.e. `none`, on any other character; no entry maps to byte 0). -/
def escape_replace (c : Char) : Option Char :=
  if c = '"' then some '"'
  else if c = '\\' then some '\\'
  else if c = 'b' then some (Char.ofNat 8)
  else if c = 'f' then some (Char.ofNat 12)
  else if c = 'n' then some (Char.ofNat 10)
  else if c = 'r' then some (Char.ofNat 13)
  else if c = 't' then some (Char.ofNat 9)
  else if c = 'e' then some (Char.ofNat 27)
  else if c = Char.ofNat 39 then some (Char.ofNat 39)
  else none

/-- UTF-8 encoding of a codepoint: embedding of `mp_append_utf8_bstr`
(common.c lines 136-143), whose `PUT_UTF8` macro comes from the external
libavutil library and realizes the standard UTF-8 byte layout for every
codepoint reachable from `mp_parse_escape` (at most 4 hex digits). -/
def put_utf8 (cp : ℕ) : List ℕ :=
  if cp < 0x80 then [cp]
  else if cp < 0x800 then [0xC0 + cp / 64, 0x80 + cp % 64]
  else if cp < 0x10000 then
    [0xE0 + cp / 4096, 0x80 + cp / 64 % 64, 0x80 + cp % 64]
  else
    [0xF0 + cp / 262144, 0x80 + cp / 4096 % 64, 0x80 + cp / 64 % 64,
     0x80 + cp % 64]

/-- `mp_parse_escape` (common.c lines 150-190).  `dst` and `code` are the
in/out buffers; the returned triple is (success flag, new `*dst`, new
`*code`), every `return false` path leaving both exactly as passed in.
Note the hex branch keeps the source's check `if (!num.len) return false;`
(line 174): it fails when `bstrtoll` consumed the whole 2-byte slice. -/
def mp_parse_escape (dst code : List Char) : Bool × List Char × List Char :=
  match code with
  | [] => (false, dst, [])
  | c0 :: rest =>
    match escape_replace c0 with
    | some r => (true, bstr_xappend dst [r], bstr_cut (c0 :: rest) 1)
    | none =>
      if c0 = 'x' ∧ 3 ≤ (c0 :: rest).length then
        let num := bstr_splice (c0 :: rest) 1 3
        let p := bstrtoll16 num
        if p.2.length = 0 then (false, dst, c0 :: rest)
        else
          (true, bstr_xappend dst [Char.ofNat ((p.1 % 256).toNat)],
           bstr_cut (c0 :: rest) 3)
      else if c0 = 'u' ∧ 5 ≤ (c0 :: rest).length then
        let num := bstr_splice (c0 :: rest) 1 5
        let p := bstrtoll16 num
        if p.2.length ≠ 0 then (false, dst, c0 :: rest)
        else
          (true,
           bstr_xappend dst
             ((put_utf8 ((p.1 % (2 ^ 32 : ℤ)).toNat)).map Char.ofNat),
           bstr_cut (c0 :: rest) 5)
      else (false, dst, c0 :: rest)

/-- The `while (1)` loop of `mp_append_escaped_string_noalloc` (common.c
lines 199-218).  `Except.error` carries the destination buffer as mutated up
to the failing escape (`goto error`); `Except.ok` carries the final
destination and the remaining source slice.  The `dst->start == NULL`
aliasing optimization is allocation behaviour and value-level identical to
appending, so `dst` is a plain byte list here. -/
def noalloc_loop (dst t : List Char) (cur : ℕ) :
    Except (List Char) (List Char × List Char) :=
  match hd : t.drop cur with
  | [] => Except.ok (bstr_xappend dst (bstr_splice t 0 cur), bstr_cut t cur)
  | c :: _ =>
    if c = '"' then
      Except.ok (bstr_xappend dst (bstr_splice t 0 cur), bstr_cut t cur)
    else if c = '\\' then
      match hp : mp_parse_escape (bstr_xappend dst (bstr_splice t 0 cur))
          (bstr_cut t (cur + 1)) with
      | (true, dst2, t2) => noalloc_loop dst2 t2 0
      | (false, dst2, _) => Except.error dst2
    else noalloc_loop dst t (cur + 1)
termination_by 2 * t.length - cur
decreasing_by
· have hcur : cur < t.length := by
    have hlen0 := congrArg List.length hd
    simp [List.length_drop] at hlen0
    omega
  have hlen : ∀ d c, ((mp_parse_escape d c).2.2).length ≤ c.length := by
    intro d c
    cases c with
    | nil => simp [mp_parse_escape]
    | cons c0 rest =>
      simp only [mp_parse_escape]
      cases h : escape_replace c0 <;> simp only [h]
      · split
        · split
          · simp
          · simp [bstr_cut] <;> omega
        · split
          · split
            · simp
            · simp [bstr_cut] <;> omega
          · simp
      · simp [bstr_cut]
  have hstep := hlen (bstr_xappend dst (bstr_splice t 0 cur))
    (bstr_cut t (cur + 1))
  rw [hp] at hstep
  simp only [bstr_cut, List.length_drop] at hstep
  omega
· have hcur : cur < t.length := by
    have hlen0 := congrArg List.length hd
    simp [List.length_drop] at hlen0
    omega
  omega

/-- `mp_append_escaped_string_noalloc` (common.c lines 195-221): on success
`*src` becomes the unconsumed tail; on error (`return false` at line 220)
`*src` is left untouched and `*dst` holds everything appended before the
failing escape. -/
def mp_append_escaped_string_noalloc (dst src : List Char) :
    Bool × List Char × List Char :=
  match noalloc_loop dst src 0 with
  | Except.ok (dst2, rest) => (true, dst2, rest)
  | Except.error dst2 => (false, dst2, src)

/-- `mp_append_escaped_string` (common.c lines 233-245): same values as the
noalloc variant; the extra "guarantee copy" step only affects allocation. -/
def mp_append_escaped_string (dst src : List Char) :
    Bool × List Char × List Char :=
  mp_append_escaped_string_noalloc dst src

/-! ## wayland_common.c

The backend state is reduced to the fields the claims touch.  Calls into the
external Wayland/xkb libraries either carry no modelled state (listener
registration, surface commits) or are abstracted as parameters: `g` stands
for `vo_get_src_dst_rects` (vo.c, outside `src/`, a pure function of the
requested size and the player options closed over by `g`), and `ld` stands
for the effect of `wl_display_dispatch_pending` / `wl_display_dispatch`
(listener callbacks mutating the backend state; the caller-owned `events`
bitmask and `arg` buffer are not reachable from listeners). -/

/-- Modelled from the spec: `VO_TRUE` from `vo.h`, which is not under
`src/`.  Only distinctness from `VO_NOTIMPL` matters. -/
def VO_TRUE : ℤ := 1

/-- Modelled from the spec: `VO_NOTIMPL` from `vo.h`, which is not under
`src/`. -/
def VO_NOTIMPL : ℤ := -3

/-- Modelled from the spec: the `VO_EVENT_RESIZE` bit from `vo.h`, which is
not under `src/`.  Only its identity as one fixed bit matters. -/
def VO_EVENT_RESIZE : ℕ := 2

/-- One entry of the per-output metadata list (`struct vo_wayland_output`). -/
structure VoWlOutput where
  width : ℤ
  height : ℤ
  refresh_rate : ℤ
deriving DecidableEq

/-- The modelled slice of `struct vo_wayland_state`. -/
structure VoWlState where
  /-- `wl->window.events` bitmask. -/
  events : ℕ
  /-- `wl->window.state.fullscreen`. -/
  fullscreen : Bool
  /-- whether `wl->display.shell` is non-NULL. -/
  shell : Bool
  /-- `wl->window.width`. -/
  win_width : ℤ
  /-- `wl->window.height`. -/
  win_height : ℤ
  /-- `wl->window.p_width`. -/
  p_width : ℤ
  /-- `wl->window.p_height`. -/
  p_height : ℤ
  /-- `wl->vo->dwidth`. -/
  dwidth : ℤ
  /-- `wl->vo->dheight`. -/
  dheight : ℤ
  /-- `wl->window.sh_width`. -/
  sh_width : ℤ
  /-- `wl->window.sh_height`. -/
  sh_height : ℤ
  /-- `wl->cursor.visible`. -/
  cursor_visible : Bool
  /-- `wl->display.current_output` (its metadata when non-NULL). -/
  current_output : Option VoWlOutput
deriving DecidableEq

/-- `enum xdg_surface_state` values carried by a configure event. -/
inductive XdgState where
  | maximized
  | fullscreen
  | resizing
  | activated
  | other (n : ℕ)
deriving DecidableEq, BEq

/-- `schedule_resize` (wayland_common.c lines 736-750): records the new
display size, recomputes the scaled destination rectangle through the
external `vo_get_src_dst_rects` (abstracted as `g`), and ORs the single
`VO_EVENT_RESIZE` bit into the window event bitmask. -/
def schedule_resize (g : ℤ → ℤ → ℤ × ℤ) (st : VoWlState) (width height : ℤ) :
    VoWlState :=
  { st with
    dwidth := width
    dheight := height
    sh_width := (g width height).1
    sh_height := (g width height).2
    events := st.events ||| VO_EVENT_RESIZE }

/-- `xdg_handle_configure` (wayland_common.c lines 128-159): a resize is
scheduled only for positive dimensions; the fullscreen flag is reset and
re-derived from the state array (`xdg_surface_ack_configure` is external). -/
def xdg_handle_configure (g : ℤ → ℤ → ℤ × ℤ) (st : VoWlState)
    (width height : ℤ) (states : List XdgState) : VoWlState :=
  let st1 := if 0 < width ∧ 0 < height then schedule_resize g st width height
             else st
  { st1 with fullscreen := states.contains XdgState.fullscreen }

/-- `window_set_fullscreen` (wayland_common.c lines 716-734).  The actual
fullscreen flag flip arrives later through a configure event; entering
fullscreen saves the windowed size, leaving re-schedules it. -/
def window_set_fullscreen (g : ℤ → ℤ → ℤ × ℤ) (st : VoWlState) : VoWlState :=
  if st.shell = false then st
  else if st.fullscreen = false then
    { st with p_width := st.win_width, p_height := st.win_height }
  else schedule_resize g st st.p_width st.p_height

/-- `vo_wayland_check_events` (wayland_common.c lines 967-1058): dispatches
pending display events (abstracted as `ld`; the drag-and-drop pipe drain and
fd error handling never touch `wl->window.events`) and returns the window
event bitmask WITHOUT clearing it - per the comment at line 1056, "window
events are reset by the resizing code". -/
def vo_wayland_check_events (ld : VoWlState → VoWlState) (st : VoWlState) :
    ℕ × VoWlState :=
  ((ld st).events, ld st)

/-- Modelled from the spec: the "resizing code" that consumes the reported
events lives outside `src/` (the comment at wayland_common.c line 1056 refers
to it); per the spec the pending-resize flag is consumed once per polling
cycle, i.e. the reacting resize code clears the window event bitmask. -/
def resize_reset (st : VoWlState) : VoWlState := { st with events := 0 }

/-- Modelled from the spec: one polling cycle = the event-check entry point
followed by the player reacting to a reported resize (which consumes the
flag via `resize_reset`). -/
def poll_cycle (ld : VoWlState → VoWlState) (st : VoWlState) :
    ℕ × VoWlState :=
  let r := vo_wayland_check_events ld st
  if r.1 &&& VO_EVENT_RESIZE ≠ 0 then (r.1, resize_reset r.2) else r

/-- The `request` codes dispatched by `vo_wayland_control` (`VOCTRL_*` from
`vo.h`, not under `src/`; only their distinctness matters, so they are an
inductive type with `other` covering every unhandled code). -/
inductive VoCtrl where
  | checkEvents
  | fullscreenToggle
  | getWinSize
  | setWinSize
  | setCursorVis
  | updateTitle
  | getDisplayFps
  | other (n : ℕ)
deriving DecidableEq

/-- The caller's `void *arg` buffer, by the shape each handled request
reinterprets it as (the C type-puns one pointer; a shape mismatch is
undefined behaviour in C and left as the identity here - no claim
exercises it). -/
inductive CtrlArg where
  | sizePair (a b : ℤ)
  | flag (b : Bool)
  | title (s : List Char)
  | fpsVal (v : ℤ)
  | rawPtr (n : ℕ)
deriving DecidableEq

/-- Result of one `vo_wayland_control` call: the returned status plus the
post-call backend state, caller `*events` bitmask, and caller `arg` buffer. -/
structure CtrlResult where
  status : ℤ
  st : VoWlState
  events : ℕ
  arg : CtrlArg
deriving DecidableEq

/-- `vo_wayland_control` (wayland_common.c lines 1103-1152).  It first runs
`wl_display_dispatch_pending` (`ld`), then dispatches on the request code;
the fall-through for unhandled codes - and for `VOCTRL_GET_DISPLAY_FPS` with
no current output - returns `VO_NOTIMPL`.  `window_set_title`, `show_cursor`
and `hide_cursor` only call into the display server, so of them only the
`wl->cursor.visible` update appears here; the FPS written for
`VOCTRL_GET_DISPLAY_FPS` is the C integer division `refresh_rate / 1000`. -/
def vo_wayland_control (g : ℤ → ℤ → ℤ × ℤ) (ld : VoWlState → VoWlState)
    (st : VoWlState) (events : ℕ) (request : VoCtrl) (arg : CtrlArg) :
    CtrlResult :=
  let st1 := ld st
  match request with
  | VoCtrl.checkEvents =>
    let r := vo_wayland_check_events ld st1
    ⟨VO_TRUE, r.2, events ||| r.1, arg⟩
  | VoCtrl.fullscreenToggle => ⟨VO_TRUE, window_set_fullscreen g st1, events, arg⟩
  | VoCtrl.getWinSize =>
    ⟨VO_TRUE, st1, events, CtrlArg.sizePair st1.win_width st1.win_height⟩
  | VoCtrl.setWinSize =>
    match arg with
    | CtrlArg.sizePair a b =>
      ⟨VO_TRUE, if st1.fullscreen then st1 else schedule_resize g st1 a b,
       events, arg⟩
    | _ => ⟨VO_TRUE, st1, events, arg⟩
  | VoCtrl.setCursorVis =>
    match arg with
    | CtrlArg.flag b => ⟨VO_TRUE, { st1 with cursor_visible := b }, events, arg⟩
    | _ => ⟨VO_TRUE, st1, events, arg⟩
  | VoCtrl.updateTitle => ⟨VO_TRUE, st1, events, arg⟩
  | VoCtrl.getDisplayFps =>
    match st1.current_output with
    | none => ⟨VO_NOTIMPL, st1, events, arg⟩
    | some o =>
      ⟨VO_TRUE, st1, events, CtrlArg.fpsVal (Int.tdiv o.refresh_rate 1000)⟩
  | VoCtrl.other _ => ⟨VO_NOTIMPL, st1, events, arg⟩

/-- Outcomes of the external create steps attempted by `vo_wayland_init`
(library connection results; `probing_no_runtime` is the
`vo->probing && !getenv("XDG_RUNTIME_DIR")` early-out of `create_display`). -/
structure WlEnv where
  xkb_ok : Bool
  probing_no_runtime : Bool
  display_ok : Bool
  shell_present : Bool
  xdg_surface_ok : Bool
  shm_present : Bool
  cursor_surface_ok : Bool
deriving DecidableEq

/-- `create_input` (wayland_common.c lines 877-889): fails iff
`xkb_context_new` fails. -/
def create_input (env : WlEnv) : Bool := env.xkb_ok

/-- `create_display` (wayland_common.c lines 752-775). -/
def create_display (env : WlEnv) : Bool :=
  if env.probing_no_runtime then false else env.display_ok

/-- `create_window` (wayland_common.c lines 814-837): fails iff a shell is
present and `xdg_shell_get_xdg_surface` fails. -/
def create_window (env : WlEnv) : Bool :=
  if env.shell_present then env.xdg_surface_ok else true

/-- `create_cursor` (wayland_common.c lines 848-866): needs the shm
interface and a cursor surface. -/
def create_cursor (env : WlEnv) : Bool :=
  env.shm_present && env.cursor_surface_ok

/-- The init/uninit steps, recorded as an effect trace. -/
inductive WlAction where
  | createInput
  | createDisplay
  | createWindow
  | createCursor
  | destroyCursor
  | destroyWindow
  | destroyDisplay
  | destroyInput
  | freeState
deriving DecidableEq

/-- `vo_wayland_uninit` (wayland_common.c lines 956-965): unconditionally
destroys cursor, window, display and input in that order (each destroy
guards internally on NULL sub-objects), then frees the state. -/
def vo_wayland_uninit_trace : List WlAction :=
  [WlAction.destroyCursor, WlAction.destroyWindow, WlAction.destroyDisplay,
   WlAction.destroyInput, WlAction.freeState]

/-- `vo_wayland_init` (wayland_common.c lines 917-954): the four create
steps are attempted in order with short-circuit `||` on failure; on the
first failure the full `vo_wayland_uninit` runs and `false` is returned.
The result is the success flag and the trace of steps performed. -/
def vo_wayland_init (env : WlEnv) : Bool × List WlAction :=
  if create_input env = false then
    (false, [WlAction.createInput] ++ vo_wayland_uninit_trace)
  else if create_display env = false then
    (false, [WlAction.createInput, WlAction.createDisplay]
      ++ vo_wayland_uninit_trace)
  else if create_window env = false then
    (false, [WlAction.createInput, WlAction.createDisplay,
             WlAction.createWindow] ++ vo_wayland_uninit_trace)
  else if create_cursor env = false then
    (false, [WlAction.createInput, WlAction.createDisplay,
             WlAction.createWindow, WlAction.createCursor]
      ++ vo_wayland_uninit_trace)
  else
    (true, [WlAction.createInput, WlAction.createDisplay,
            WlAction.createWindow, WlAction.createCursor])

/-- A concrete backend state used to instantiate witness theorems. -/
def sampleState : VoWlState :=
  { events := 0, fullscreen := false, shell := true, win_width := 640,
    win_height := 480, p_width := 0, p_height := 0, dwidth := 0, dheight := 0,
    sh_width := 0, sh_height := 0, cursor_visible := true,
    current_output := none }

/-- `sampleState` with a pending resize event. -/
def sampleStateR : VoWlState := { sampleState with events := VO_EVENT_RESIZE }

/-- A concrete stand-in for the external `vo_get_src_dst_rects` closure. -/
def sampleRects (w h : ℤ) : ℤ × ℤ := (w, h)

/-! ## Helper lemmas -/

/-- A base-16 digit is not whitespace, a sign, or an `x`/`X` prefix
character. -/
theorem hex_facts (c : Char) (h : isHexDigit c = true) :
    isCSpace c = false ∧ c ≠ '-' ∧ c ≠ '+' ∧ (c == 'x') = false
      ∧ (c == 'X') = false := by
  refine ⟨?_, ?_, ?_, ?_, ?_⟩
  · cases hc : isCSpace c
    · rfl
    · exfalso
      have hm := of_decide_eq_true hc
      simp only [List.mem_cons, List.mem_singleton] at hm
      rcases hm with rfl | rfl | rfl | rfl | rfl | hm
      · exact absurd h (by decide)
      · exact absurd h (by decide)
      · exact absurd h (by decide)
      · exact absurd h (by decide)
      · exact absurd h (by decide)
      · simp at hm
        subst hm
        exact absurd h (by decide)
  · rintro rfl
    exact absurd h (by decide)
  · rintro rfl
    exact absurd h (by decide)
  · cases hb : c == 'x'
    · rfl
    · exfalso
      have hcx : c = 'x' := eq_of_beq hb
      subst hcx
      exact absurd h (by decide)
  · cases hb : c == 'X'
    · rfl
    · exfalso
      have hcX : c = 'X' := eq_of_beq hb
      subst hcX
      exact absurd h (by decide)

/-- A base-16 digit value is below 16. -/
theorem hexVal_lt (c : Char) : hexVal c < 16 := by
  unfold hexVal
  split_ifs <;> omega

/-- `bstrtoll` in base 16 consumes a slice of four hex digits entirely. -/
theorem bstrtoll16_hex4 (d1 d2 d3 d4 : Char)
    (h1 : isHexDigit d1 = true) (h2 : isHexDigit d2 = true)
    (h3 : isHexDigit d3 = true) (h4 : isHexDigit d4 = true) :
    bstrtoll16 [d1, d2, d3, d4] =
      (((4096 * hexVal d1 + 256 * hexVal d2 + 16 * hexVal d3 + hexVal d4
          : ℕ) : ℤ), []) := by
  obtain ⟨hs1, hm1, hp1, hx1, hX1⟩ := hex_facts d1 h1
  obtain ⟨hs2, hm2, hp2, hx2, hX2⟩ := hex_facts d2 h2
  unfold bstrtoll16
  rw [List.dropWhile_cons, hs1]
  simp only [Bool.false_eq_true, if_false]
  rw [if_neg hm1, if_neg hp1]
  unfold strtoll_core
  simp only [hexAfterX, hx2, hX2, Bool.or_self, Bool.false_and,
    Bool.false_eq_true, and_false, if_false]
  rw [if_pos h1]
  simp only [parse_hex_digits, h1, h2, h3, h4, if_true]
  norm_num
  ring

/-- First loop iteration on the input `\x4g`: the backslash branch calls
`mp_parse_escape`, which (because of the inverted length check) accepts the
malformed hex escape, appending byte 4 and consuming `x4g`. -/
theorem noalloc_x4g_step1 :
    noalloc_loop [] ['\\', 'x', '4', 'g'] 0 =
      noalloc_loop [Char.ofNat 4] [] 0 := by
  rw [noalloc_loop]
  rfl

/-- Second loop iteration on the input `\x4g`: the exhausted source slice
terminates the loop successfully. -/
theorem noalloc_x4g_step2 : noalloc_loop [Char.ofNat 4] [] 0 =
    Except.ok ([Char.ofNat 4], []) := by
  rw [noalloc_loop]
  rfl

/-- Someness of a directive rendering does not depend on the numeric
arguments. -/
theorem directive_str_isSome (sign : List Char) (h tm m s it ms : ℕ)
    (d : Char) :
    (directive_str sign h tm m s it ms d).isSome = directive_supported d := by
  unfold directive_supported directive_str
  split_ifs <;> rfl

/-- Unfolding one recognized directive at the head of the format loop. -/
theorem format_loop_head_dir (sign : List Char) (h tm m s it ms : ℕ)
    (d : Char) (piece fs : List Char)
    (hdir : directive_str sign h tm m s it ms d = some piece) :
    format_loop sign h tm m s it ms ('%' :: d :: fs) =
      (format_loop sign h tm m s it ms fs).map (piece ++ ·) := by
  simp [format_loop, hdir]

/-- Mapping a `['-'] ++ _` prepend over an optional tail yields `none` or a
dash-headed list. -/
theorem sign_piece_case (x : List Char) (o : Option (List Char)) :
    o.map ((['-'] ++ x) ++ ·) = none
      ∨ ∃ r, o.map ((['-'] ++ x) ++ ·) = some ('-' :: r) := by
  cases o with
  | none => exact Or.inl rfl
  | some r => exact Or.inr ⟨x ++ r, by simp⟩

/-- A malformed format string drives the format loop into the error arm. -/
theorem format_loop_malformed (sign : List Char) (h tm m s it ms : ℕ)
    (fmt : List Char) (hm : fmt_malformed fmt = true) :
    format_loop sign h tm m s it ms fmt = none := by
  have H : ∀ n (f : List Char), f.length ≤ n → fmt_malformed f = true →
      format_loop sign h tm m s it ms f = none := by
    intro n
    induction n with
    | zero =>
      intro f hl hmf
      cases f with
      | nil => simp [fmt_malformed] at hmf
      | cons c fs => simp at hl
    | succ n ih =>
      intro f hl hmf
      cases f with
      | nil => simp [fmt_malformed] at hmf
      | cons c fs =>
        by_cases hc : c = '%'
        · subst hc
          cases fs with
          | nil => simp [format_loop]
          | cons d fs2 =>
            simp only [fmt_malformed, if_pos rfl] at hmf
            by_cases hd : directive_supported d = true
            · rw [if_pos hd] at hmf
              have hrec := ih fs2 (by simp at hl; omega) hmf
              have hsome : (directive_str sign h tm m s it ms d).isSome :=
                by rw [directive_str_isSome]; exact hd
              obtain ⟨p, hp⟩ := Option.isSome_iff_exists.mp hsome
              simp [format_loop, hp, hrec]
            · have hnone : directive_str sign h tm m s it ms d = none := by
                have hiff := directive_str_isSome sign h tm m s it ms d
                rw [Option.eq_none_iff_forall_not_mem]
                intro a ha
                rw [(by rw [ha]; rfl :
                    (directive_str sign h tm m s it ms d).isSome = true)]
                    at hiff
                exact hd hiff.symm
              simp [format_loop, hnone]
        · rw [fmt_malformed.eq_def] at hmf
          simp only [hc, if_false] at hmf
          have hrec := ih fs (by simp at hl; omega) hmf
          rw [format_loop.eq_def]
          simp [hc, hrec]
  exact H fmt.length fmt le_rfl hm

/-! ## Claims -/

/-- C1: for the format string `"%H:%M:%S"` and time value 3725,
`mp_format_time_fmt` returns `"01:02:05"` (hours zero-padded to two digits,
minutes and seconds reduced modulo their units). -/
theorem claim_C1_format_hms :
    mp_format_time_fmt ("%H:%M:%S".toList) 3725 =
      some ("01:02:05".toList) := by
  decide

/-- C2 (code bug): on the well-formed 2-hex-digit escape `x41` (the claim
says it must succeed, appending byte 0x41 and consuming three characters),
`mp_parse_escape` instead returns failure, because the check at common.c
line 174 is `if (!num.len) return false;` - it rejects exactly the inputs
where `bstrtoll` consumed both hex digits (the symmetric 4-digit Unicode
branch at line 183 checks `if (num.len)`). -/
theorem claim_C2_hex_escape_bug :
    mp_parse_escape [] ['x', '4', '1'] = (false, [], ['x', '4', '1']) := by
  decide

/-- C3 (code bug): on an input containing the malformed escape `\x4g`
(`g` is not a hex digit), `mp_append_escaped_string` must report failure;
because of the inverted check at common.c line 174 it instead succeeds,
appending byte 0x04 and consuming the whole escape. -/
theorem claim_C3_malformed_escape_bug :
    mp_append_escaped_string [] ['\\', 'x', '4', 'g'] =
      (true, [Char.ofNat 4], []) := by
  rw [mp_append_escaped_string, mp_append_escaped_string_noalloc,
    noalloc_x4g_step1, noalloc_x4g_step2]

/-- C4: every well-formed single-character escape `n`, `t`, `"` appends the
byte 0x0A, 0x09, 0x22 respectively and consumes one character, and every
4-hex-digit Unicode escape `u` NNNN appends the UTF-8 encoding of codepoint
0xNNNN and consumes five characters, returning true in each case. -/
theorem claim_C4_escape_decoding (dst rest : List Char) (d1 d2 d3 d4 : Char)
    (h1 : isHexDigit d1 = true) (h2 : isHexDigit d2 = true)
    (h3 : isHexDigit d3 = true) (h4 : isHexDigit d4 = true) :
    mp_parse_escape dst ('n' :: rest) = (true, dst ++ [Char.ofNat 10], rest)
      ∧ mp_parse_escape dst ('t' :: rest) = (true, dst ++ [Char.ofNat 9], rest)
      ∧ mp_parse_escape dst ('"' :: rest) =
          (true, dst ++ [Char.ofNat 34], rest)
      ∧ mp_parse_escape dst ('u' :: d1 :: d2 :: d3 :: d4 :: rest) =
          (true,
           dst ++ (put_utf8 (4096 * hexVal d1 + 256 * hexVal d2
             + 16 * hexVal d3 + hexVal d4)).map Char.ofNat,
           rest) := by
  refine ⟨rfl, rfl, rfl, ?_⟩
  have hb := bstrtoll16_hex4 d1 d2 d3 d4 h1 h2 h3 h4
  have hlt : 4096 * hexVal d1 + 256 * hexVal d2 + 16 * hexVal d3 + hexVal d4
      < 4294967296 := by
    have e1 := hexVal_lt d1
    have e2 := hexVal_lt d2
    have e3 := hexVal_lt d3
    have e4 := hexVal_lt d4
    omega
  simp only [mp_parse_escape, show escape_replace 'u' = none from by decide,
    show ('u' = 'x') = False from by decide, false_and, if_false,
    show ('u' = 'u') = True from by decide, true_and, bstr_splice]
  norm_num [hb, bstr_xappend, bstr_cut]
  rw [Int.emod_eq_of_lt (by positivity) (by exact_mod_cast hlt)]
  have hcast : (4096 * (hexVal d1 : ℤ) + 256 * (hexVal d2 : ℤ)
      + 16 * (hexVal d3 : ℤ) + (hexVal d4 : ℤ)).toNat
      = 4096 * hexVal d1 + 256 * hexVal d2 + 16 * hexVal d3 + hexVal d4 := by
    omega
  rw [hcast]

/-- Witness for C4 at the concrete escape `u00e9` (U+00E9, UTF-8 C3 A9). -/
theorem claim_C4_escape_decoding_witness :
    mp_parse_escape [] ('u' :: '0' :: '0' :: 'e' :: '9' :: []) =
      (true,
       [] ++ (put_utf8 (4096 * hexVal '0' + 256 * hexVal '0'
         + 16 * hexVal 'e' + hexVal '9')).map Char.ofNat,
       []) :=
  (claim_C4_escape_decoding [] [] '0' '0' 'e' '9' (by decide) (by decide)
    (by decide) (by decide)).2.2.2

/-- C5: for every format string, the sentinel time value yields the fixed
string "unknown" regardless of the format contents. -/
theorem claim_C5_unknown_sentinel (fmt : List Char) :
    mp_format_time_fmt fmt MP_NOPTS_VALUE = some ("unknown".toList) := by
  simp [mp_format_time_fmt]

/-- C6 counterexample: `-61` is a negative non-sentinel time, yet formatting
it with `"%M"` yields `"01"`, which carries no `-` sign prefix (the `%M`,
`%S`, `%T` directives and literal characters never print the sign). -/
theorem claim_C6_counterexample :
    mp_format_time_fmt ['%', 'M'] (-61) = some ['0', '1'] := by
  decide

/-- C6 (amended): for every negative time value other than the sentinel and
every format string beginning with one of the sign-carrying directives
`%h`, `%H`, `%m`, `%s`, `mp_format_time_fmt` either fails or returns output
prefixed with `-`. -/
theorem claim_C6_sign_directives (t : ℚ) (d : Char) (fs : List Char)
    (hns : t ≠ MP_NOPTS_VALUE) (hneg : t < 0)
    (hd : d = 'h' ∨ d = 'H' ∨ d = 'm' ∨ d = 's') :
    mp_format_time_fmt ('%' :: d :: fs) t = none
      ∨ ∃ r, mp_format_time_fmt ('%' :: d :: fs) t = some ('-' :: r) := by
  unfold mp_format_time_fmt
  rw [if_neg hns]
  have hsign : time_sign t = ['-'] := by simp [time_sign, hneg]
  rw [hsign]
  rcases hd with rfl | rfl | rfl | rfl
  · rw [format_loop_head_dir ['-'] (fmt_hours t) (fmt_totmin t) (fmt_mins t)
      (fmt_secs t) (itime t) (fmt_msecs t) 'h'
      (['-'] ++ nat_str (fmt_hours t)) fs rfl]
    exact sign_piece_case _ _
  · rw [format_loop_head_dir ['-'] (fmt_hours t) (fmt_totmin t) (fmt_mins t)
      (fmt_secs t) (itime t) (fmt_msecs t) 'H'
      (['-'] ++ fmt_pad 2 (fmt_hours t)) fs rfl]
    exact sign_piece_case _ _
  · rw [format_loop_head_dir ['-'] (fmt_hours t) (fmt_totmin t) (fmt_mins t)
      (fmt_secs t) (itime t) (fmt_msecs t) 'm'
      (['-'] ++ nat_str (fmt_totmin t)) fs rfl]
    exact sign_piece_case _ _
  · rw [format_loop_head_dir ['-'] (fmt_hours t) (fmt_totmin t) (fmt_mins t)
      (fmt_secs t) (itime t) (fmt_msecs t) 's'
      (['-'] ++ nat_str (itime t)) fs rfl]
    exact sign_piece_case _ _

/-- Witness for C6 at `t = -61` with format `"%H"`. -/
theorem claim_C6_sign_directives_witness :
    mp_format_time_fmt ('%' :: 'H' :: []) (-61) = none
      ∨ ∃ r, mp_format_time_fmt ('%' :: 'H' :: []) (-61) = some ('-' :: r) :=
  claim_C6_sign_directives (-61) 'H' [] (by decide) (by decide)
    (Or.inr (Or.inl rfl))

/-- C7 counterexample: the claim quantifies over every format string
containing a `%` followed by a character outside the directive set, for all
time values.  It fails twice: at the sentinel, `"%x"` still yields
`"unknown"`; and `"%%x"` (whose `%` at index 1 is followed by `x`) is
accepted for ordinary times because `%%` consumes both characters. -/
theorem claim_C7_counterexample :
    mp_format_time_fmt ['%', 'x'] MP_NOPTS_VALUE = some ("unknown".toList)
      ∧ mp_format_time_fmt ['%', '%', 'x'] 5 = some ['%', 'x'] := by
  constructor <;> decide

/-- C7 (amended): for every time value other than the unknown sentinel and
every format string that is malformed under the left-to-right directive scan
(a `%` whose following character is outside {h, H, m, M, s, S, T, %}, or a
trailing `%`; `%%` consumes both characters), `mp_format_time_fmt` aborts
and returns no result, producing no partial output. -/
theorem claim_C7_malformed_abort (fmt : List Char) (t : ℚ)
    (hns : t ≠ MP_NOPTS_VALUE) (hm : fmt_malformed fmt = true) :
    mp_format_time_fmt fmt t = none := by
  unfold mp_format_time_fmt
  rw [if_neg hns]
  exact format_loop_malformed _ _ _ _ _ _ _ fmt hm

/-- Witness for C7 at format `"%x"` and time 0. -/
theorem claim_C7_malformed_abort_witness :
    mp_format_time_fmt ['%', 'x'] 0 = none :=
  claim_C7_malformed_abort ['%', 'x'] 0 (by decide) (by decide)

/-- C8: a display-server configure event with positive dimensions and a
player set-window-size request while not fullscreen both OR the same single
`VO_EVENT_RESIZE` flag into the window event bitmask, and once a polling
cycle reports the flag (the resizing code resetting the events, modelled
from the spec), a second check with no new resize request does not report
it again. -/
theorem claim_C8_resize_flag (g : ℤ → ℤ → ℤ × ℤ) (ld : VoWlState → VoWlState)
    (st1 st2 st3 : VoWlState) (w h : ℤ) (states : List XdgState) (ev : ℕ)
    (a b : ℤ) :
    (0 < w → 0 < h →
      (xdg_handle_configure g st1 w h states).events
        = st1.events ||| VO_EVENT_RESIZE)
  ∧ ((ld st2).fullscreen = false →
      ((vo_wayland_control g ld st2 ev VoCtrl.setWinSize
          (CtrlArg.sizePair a b)).st).events
        = (ld st2).events ||| VO_EVENT_RESIZE)
  ∧ ((poll_cycle ld st3).1 &&& VO_EVENT_RESIZE ≠ 0 →
      (poll_cycle id (poll_cycle ld st3).2).1 &&& VO_EVENT_RESIZE = 0) := by
  refine ⟨?_, ?_, ?_⟩
  · intro hw hh
    simp [xdg_handle_configure, schedule_resize, hw, hh]
  · intro hfs
    simp [vo_wayland_control, hfs, schedule_resize]
  · intro hr
    have hfst : (poll_cycle ld st3).1 = (ld st3).events := by
      simp only [poll_cycle, vo_wayland_check_events]
      split <;> rfl
    rw [hfst] at hr
    have hsnd : (poll_cycle ld st3).2 = resize_reset (ld st3) := by
      simp only [poll_cycle, vo_wayland_check_events]
      rw [if_pos hr]
    rw [hsnd]
    simp [poll_cycle, vo_wayland_check_events, resize_reset, VO_EVENT_RESIZE]

/-- Witness for C8: a concrete configure event, a concrete set-window-size
request, and a concrete polling cycle starting with a pending resize. -/
theorem claim_C8_resize_flag_witness :
    (xdg_handle_configure sampleRects sampleState 800 600 []).events
        = sampleState.events ||| VO_EVENT_RESIZE
      ∧ ((vo_wayland_control sampleRects id sampleState 0 VoCtrl.setWinSize
          (CtrlArg.sizePair 320 240)).st).events
          = (id sampleState).events ||| VO_EVENT_RESIZE
      ∧ (poll_cycle id (poll_cycle id sampleStateR).2).1 &&& VO_EVENT_RESIZE
          = 0 := by
  obtain ⟨ha, hb, hc⟩ := claim_C8_resize_flag sampleRects id sampleState
    sampleState sampleStateR 800 600 [] 0 320 240
  exact ⟨ha (by decide) (by decide), hb (by rfl), hc (by decide)⟩

/-- C9: if any initialization step of the windowing backend fails
(input-context creation, display connection, window creation, or cursor
creation), `vo_wayland_init` returns false, and before returning it runs
the full uninit path (its trace ends with the complete
`vo_wayland_uninit` sequence). -/
theorem claim_C9_init_unwind (env : WlEnv)
    (hfail : create_input env = false ∨ create_display env = false
      ∨ create_window env = false ∨ create_cursor env = false) :
    (vo_wayland_init env).1 = false
      ∧ ∃ pre, (vo_wayland_init env).2 = pre ++ vo_wayland_uninit_trace := by
  by_cases h1 : create_input env = false
  · rw [vo_wayland_init, if_pos h1]
    exact ⟨rfl, [WlAction.createInput], rfl⟩
  · by_cases h2 : create_display env = false
    · rw [vo_wayland_init, if_neg h1, if_pos h2]
      exact ⟨rfl, [WlAction.createInput, WlAction.createDisplay], rfl⟩
    · by_cases h3 : create_window env = false
      · rw [vo_wayland_init, if_neg h1, if_neg h2, if_pos h3]
        exact ⟨rfl, [WlAction.createInput, WlAction.createDisplay,
          WlAction.createWindow], rfl⟩
      · by_cases h4 : create_cursor env = false
        · rw [vo_wayland_init, if_neg h1, if_neg h2, if_neg h3, if_pos h4]
          exact ⟨rfl, [WlAction.createInput, WlAction.createDisplay,
            WlAction.createWindow, WlAction.createCursor], rfl⟩
        · rcases hfail with hf | hf | hf | hf
          · exact absurd hf h1
          · exact absurd hf h2
          · exact absurd hf h3
          · exact absurd hf h4

/-- Witness for C9: the input-context creation fails. -/
theorem claim_C9_init_unwind_witness :
    (vo_wayland_init ⟨false, false, true, true, true, true, true⟩).1 = false
      ∧ ∃ pre,
          (vo_wayland_init ⟨false, false, true, true, true, true, true⟩).2
            = pre ++ vo_wayland_uninit_trace :=
  claim_C9_init_unwind ⟨false, false, true, true, true, true, true⟩
    (Or.inl rfl)

/-- C10: for every request code outside the handled set, and for a
get-display-FPS request when no current output is known, the control
dispatch returns `VO_NOTIMPL` and leaves the caller's events bitmask and
argument buffer unmodified. -/
theorem claim_C10_notimpl (g : ℤ → ℤ → ℤ × ℤ) (ld : VoWlState → VoWlState)
    (st : VoWlState) (ev : ℕ) (arg : CtrlArg) (n : ℕ) :
    ((vo_wayland_control g ld st ev (VoCtrl.other n) arg).status = VO_NOTIMPL
      ∧ (vo_wayland_control g ld st ev (VoCtrl.other n) arg).events = ev
      ∧ (vo_wayland_control g ld st ev (VoCtrl.other n) arg).arg = arg)
  ∧ ((ld st).current_output = none →
      (vo_wayland_control g ld st ev VoCtrl.getDisplayFps arg).status
          = VO_NOTIMPL
        ∧ (vo_wayland_control g ld st ev VoCtrl.getDisplayFps arg).events
            = ev
        ∧ (vo_wayland_control g ld st ev VoCtrl.getDisplayFps arg).arg
            = arg) := by
  constructor
  · exact ⟨rfl, rfl, rfl⟩
  · intro hout
    unfold vo_wayland_control
    simp [hout]

/-- Witness for C10 at a get-display-FPS request with no current output. -/
theorem claim_C10_notimpl_witness :
    (vo_wayland_control sampleRects id sampleState 0 VoCtrl.getDisplayFps
        (CtrlArg.rawPtr 0)).status = VO_NOTIMPL
      ∧ (vo_wayland_control sampleRects id sampleState 0 VoCtrl.getDisplayFps
          (CtrlArg.rawPtr 0)).events = 0
      ∧ (vo_wayland_control sampleRects id sampleState 0 VoCtrl.getDisplayFps
          (CtrlArg.rawPtr 0)).arg = CtrlArg.rawPtr 0 :=
  (claim_C10_notimpl sampleRects id sampleState 0 (CtrlArg.rawPtr 0) 99).2 rfl

end Mpv
